import Mathlib

/-!
Verification of the node-evacuation logic of `pkg/cmd/admin/node` (Go).

The embedding models the decision/execution core of `EvacuateOptions.Run` and
`EvacuateOptions.RunEvacuate`:

* the external collaborators (the kube client's pod/RC listings, the pod
  delete call, selector parsing and printer construction) are modelled as a
  pure oracle `Env` supplying their results;
* the side effects of one run (banner and pod prints, pod delete calls) are
  collected in order into a trace of `Event`s;
* Go `error` values are modelled by the inductive `BaseErr` / `EvacError`,
  with `kerrors.NewAggregate` as `newAggregate` (nil on an empty list,
  an aggregate wrapping the list otherwise).

Field and function names follow the Go source where Lean allows it.
-/

namespace EvacNode

/-- `kapi.Pod`: identified by (namespace, name); carries a label map and is
bound to one node (`Host` is the host-assignment used only server-side by the
field selector of the listing). Label maps are association lists. -/
structure Pod where
  Namespace : String
  Name : String
  Labels : List (String × String)
  Host : String
  deriving Repr, DecidableEq

/-- `kapi.ReplicationController` as used here: its namespace and its
`Spec.Selector` label map. -/
structure RC where
  Namespace : String
  Selector : List (String × String)
  deriving Repr, DecidableEq

/-- `kapi.Node` as used here: `ObjectMeta.Name`, `TypeMeta.APIVersion` and
`Spec.Unschedulable`. -/
structure Node where
  Name : String
  APIVersion : String
  Unschedulable : Bool
  deriving Repr, DecidableEq

/-- `kapi.DeleteOptions` as built by `makeDeleteOptions`: the grace period
(seconds) the delete call is issued with. -/
structure DeleteOptions where
  GracePeriodSeconds : Int
  deriving Repr, DecidableEq

/-- `EvacuateOptions`: the three optional flags. The embedded `*NodeOptions`
(client, writers, pod selector) is modelled by the oracle `Env` instead. -/
structure EvacuateOptions where
  DryRun : Bool
  Force : Bool
  GracePeriod : Int
  deriving Repr, DecidableEq

/-- `NewEvacuateOptions` defaults: `DryRun=false, Force=false, GracePeriod=30`. -/
def NewEvacuateOptions : EvacuateOptions :=
  { DryRun := false, Force := false, GracePeriod := 30 }

/-- `makeDeleteOptions` creates the delete options that will be used for pod
evacuation: `&kapi.DeleteOptions{GracePeriodSeconds: &e.GracePeriod}`. -/
def makeDeleteOptions (e : EvacuateOptions) : DeleteOptions :=
  { GracePeriodSeconds := e.GracePeriod }

/-- The distinct Go `error` values `RunEvacuate` can produce or collect. -/
inductive BaseErr where
  /-- `fmt.Errorf("Node must be unschedulable to perform evacuation...")` -/
  | nodeNotUnschedulable (nodeName : String)
  /-- failure of `labels.Parse(e.Options.PodSelector)` -/
  | selectorParse (msg : String)
  /-- failure of `Kclient.Pods(NamespaceAll).List(...)` -/
  | listPodsFailed (msg : String)
  /-- failure of `Kclient.ReplicationControllers(NamespaceAll).List(...)` -/
  | listRCsFailed (msg : String)
  /-- failure of `GetPrintersByResource` -/
  | printersFailed (msg : String)
  /-- failure of `Kclient.Pods(pod.Namespace).Delete(pod.Name, deleteOptions)` -/
  | deleteFailed (ns nm msg : String)
  /-- the synthetic `fmt.Errorf("Unable to evacuate some pods...")` appended
  once when `numPodsWithNoRC > 0` -/
  | podsNotBacked (msg : String)
  deriving Repr, DecidableEq

/-- First line of the synthetic remediation error text. -/
def remediationText : String :=
  "Unable to evacuate some pods because they are not backed by replication controller."

/-- The error returned by one `RunEvacuate` call: either a direct error from
an early return, or `kerrors.NewAggregate` of the collected per-pod errors. -/
inductive EvacError where
  | base (e : BaseErr)
  | aggregate (l : List BaseErr)
  deriving Repr, DecidableEq

/-- `kerrors.NewAggregate`: nil on the empty list, otherwise an aggregate
error wrapping the list. -/
def newAggregate (l : List BaseErr) : Option EvacError :=
  if l.isEmpty then none else some (EvacError.aggregate l)

/-- The error returned by the batch `Run`: either the `GetNodes` failure
returned directly, or `kerrors.NewAggregate` of the per-node errors. -/
inductive RunErr where
  | getNodesFailed (msg : String)
  | aggregate (l : List EvacError)
  deriving Repr, DecidableEq

/-- One observable side effect of evacuation, in program order:
the one-time diagnostic banner, a pod printed with or without headers
(`printerWithHeaders` / `printerNoHeaders`), or a pod delete call with its
options. -/
inductive Event where
  | banner (nodeName : String)
  | printWithHeaders (pod : Pod)
  | printNoHeaders (pod : Pod)
  | deleteCall (ns nm : String) (opts : DeleteOptions)
  deriving Repr, DecidableEq

/-- The external collaborators of `RunEvacuate` for one node, as a pure
oracle: results of selector parsing, the two listings (the pod listing is
already filtered by label selector and host field selector, as the server
does), printer construction, and the per-pod delete outcome
(`none` = success, `some msg` = the delete error). `dryRunResult` is the
outcome of the `--list-pods` operation the dry-run branch delegates to. -/
structure Env where
  parseOk : Except String Unit
  podsResult : Except String (List Pod)
  rcsResult : Except String (List RC)
  printersOk : Except String Unit
  deleteResult : String → String → Option String
  dryRunResult : Option BaseErr

/-- `labels.SelectorFromSet(sel).Matches(labels.Set(lbls))`: the selector
matches iff every key/value requirement in `sel` is present with equal value
in `lbls`. A nil or empty set is the Everything selector, matching all. -/
def selectorMatches (sel : List (String × String)) (lbls : List (String × String)) : Bool :=
  sel.all fun kv => lbls.lookup kv.1 == some kv.2

/-- The inner classification loop of `RunEvacuate`: `foundrc` is true iff
some listed replication controller's selector matches the pod's labels. -/
def foundRC (rcs : List RC) (pod : Pod) : Bool :=
  rcs.any fun rc => selectorMatches rc.Selector pod.Labels

/-- Modelled from the spec: the dry-run branch delegates to
`ListPodsOptions.Run`, whose source file is not part of this excerpt; per the
spec it "performs no deletions; it only enumerates and prints target pods
(equivalent to a read-only listing operation)". We model it as printing the
target pods and issuing no delete calls. -/
def dryRunEvents (env : Env) : List Event :=
  match env.podsResult with
  | Except.ok pods => pods.map Event.printNoHeaders
  | Except.error _ => []

/-- The per-pod loop of `RunEvacuate` (lines 107-134): for each pod, classify
(`foundRC`), print (banner + headers for the first pod, no headers after),
then delete when controller-backed or forced — a delete failure is appended
to `errList` and the loop continues — else count it in `numPodsWithNoRC`.
State threaded exactly as in the source: `(errList, numPodsWithNoRC, trace)`. -/
def evacLoop (e : EvacuateOptions) (env : Env) (rcs : List RC) (nodeName : String) :
    List Pod → Bool → Nat → List BaseErr → List Event →
    List BaseErr × Nat × List Event
  | [], _, numPodsWithNoRC, errList, events => (errList, numPodsWithNoRC, events)
  | pod :: rest, firstPod, numPodsWithNoRC, errList, events =>
    let foundrc := foundRC rcs pod
    let events := events ++
      (if firstPod then [Event.banner nodeName, Event.printWithHeaders pod]
       else [Event.printNoHeaders pod])
    if foundrc || e.Force then
      let events := events ++ [Event.deleteCall pod.Namespace pod.Name (makeDeleteOptions e)]
      match env.deleteResult pod.Namespace pod.Name with
      | some msg =>
        evacLoop e env rcs nodeName rest false numPodsWithNoRC
          (errList ++ [BaseErr.deleteFailed pod.Namespace pod.Name msg]) events
      | none =>
        evacLoop e env rcs nodeName rest false numPodsWithNoRC errList events
    else
      evacLoop e env rcs nodeName rest false (numPodsWithNoRC + 1) errList events

/-- `EvacuateOptions.RunEvacuate`: dry-run short-circuits to the listing
operation; then the unschedulable gate; then selector parse, the two
listings and printer construction (each early-returning its error); then the
per-pod loop; finally the one-time `podsNotBacked` error if any pod was
skipped, and `NewAggregate` of the collected errors (nil when none).
Returns the Go `error` together with the trace of side effects. -/
def RunEvacuate (e : EvacuateOptions) (env : Env) (node : Node) :
    Option EvacError × List Event :=
  if e.DryRun then
    (env.dryRunResult.map EvacError.base, dryRunEvents env)
  else if !node.Unschedulable then
    (some (EvacError.base (BaseErr.nodeNotUnschedulable node.Name)), [])
  else
    match env.parseOk with
    | Except.error msg => (some (EvacError.base (BaseErr.selectorParse msg)), [])
    | Except.ok _ =>
      match env.podsResult with
      | Except.error msg => (some (EvacError.base (BaseErr.listPodsFailed msg)), [])
      | Except.ok pods =>
        match env.rcsResult with
        | Except.error msg => (some (EvacError.base (BaseErr.listRCsFailed msg)), [])
        | Except.ok rcs =>
          match env.printersOk with
          | Except.error msg => (some (EvacError.base (BaseErr.printersFailed msg)), [])
          | Except.ok _ =>
            let r := evacLoop e env rcs node.Name pods true 0 [] []
            let errList :=
              if r.2.1 > 0 then r.1 ++ [BaseErr.podsNotBacked remediationText] else r.1
            (newAggregate errList, r.2.2)

/-- The per-node loop of `EvacuateOptions.Run` (lines 57-63): each node is
evacuated in input order; a non-nil error is appended to `errList` and the
loop continues with the next node. Returns the collected node errors and the
concatenated traces. -/
def runNodes (e : EvacuateOptions) : List (Node × Env) → List EvacError × List Event
  | [] => ([], [])
  | (node, env) :: rest =>
    let r := RunEvacuate e env node
    let rs := runNodes e rest
    ((match r.1 with
      | some err => [err]
      | none => []) ++ rs.1,
     r.2 ++ rs.2)

/-- `EvacuateOptions.Run`: a `GetNodes` failure is returned directly;
otherwise every node is processed and `NewAggregate` of the collected errors
is returned (nil iff no node errored). -/
def Run (e : EvacuateOptions) (getNodes : Except String (List (Node × Env))) :
    Option RunErr × List Event :=
  match getNodes with
  | Except.error msg => (some (RunErr.getNodesFailed msg), [])
  | Except.ok pairs =>
    let r := runNodes e pairs
    (if r.1.isEmpty then none else some (RunErr.aggregate r.1), r.2)

/-! ### Observations over the trace -/

/-- Projection of one event to a delete call, if it is one. -/
def eventDelete : Event → Option (String × String × DeleteOptions)
  | Event.deleteCall ns nm opts => some (ns, nm, opts)
  | _ => none

/-- The delete calls of a trace, in order: (namespace, name, options). -/
def deleteCalls (evs : List Event) : List (String × String × DeleteOptions) :=
  evs.filterMap eventDelete

/-- Projection of one event to a printed pod, if it is one; the flag records
whether the header-bearing printer was used. -/
def eventPrinted : Event → Option (Bool × Pod)
  | Event.printWithHeaders pod => some (true, pod)
  | Event.printNoHeaders pod => some (false, pod)
  | _ => none

/-- The pods printed by a trace, in order, each with a header flag. -/
def printedPods (evs : List Event) : List (Bool × Pod) :=
  evs.filterMap eventPrinted

/-- The banners emitted by a trace, in order. -/
def banners (evs : List Event) : List String :=
  evs.filterMap fun ev =>
    match ev with
    | Event.banner nodeName => some nodeName
    | _ => none

/-- Occurrences of the synthetic skipped-pods error in a single error value. -/
def countNotBackedBase : BaseErr → Nat
  | BaseErr.podsNotBacked _ => 1
  | _ => 0

/-- Occurrences of the synthetic skipped-pods error in a returned error. -/
def countNotBacked : Option EvacError → Nat
  | none => 0
  | some (EvacError.base b) => countNotBackedBase b
  | some (EvacError.aggregate l) => (l.map countNotBackedBase).sum

/-! ### Closed-form characterization of the per-pod loop -/

/-- The error (if any) the loop records for one pod: its delete error when it
is eligible for deletion and the delete fails, nothing otherwise. -/
def podDeleteErr (e : EvacuateOptions) (env : Env) (rcs : List RC) (pod : Pod) :
    Option BaseErr :=
  if foundRC rcs pod || e.Force then
    (env.deleteResult pod.Namespace pod.Name).map
      (BaseErr.deleteFailed pod.Namespace pod.Name)
  else none

/-- The events the loop emits for a pod list, given whether the next pod is
the first of the node. -/
def podEvents (e : EvacuateOptions) (rcs : List RC) (nodeName : String) :
    List Pod → Bool → List Event
  | [], _ => []
  | pod :: rest, firstPod =>
    (if firstPod then [Event.banner nodeName, Event.printWithHeaders pod]
     else [Event.printNoHeaders pod]) ++
    (if foundRC rcs pod || e.Force then
      [Event.deleteCall pod.Namespace pod.Name (makeDeleteOptions e)]
     else []) ++
    podEvents e rcs nodeName rest false

/-- Closed form of `evacLoop`: the recorded errors are the per-pod delete
errors in listing order, the skipped counter counts the standalone unforced
pods, and the trace appends `podEvents`. -/
theorem evacLoop_spec (e : EvacuateOptions) (env : Env) (rcs : List RC)
    (nodeName : String) :
    ∀ (pods : List Pod) (firstPod : Bool) (n : Nat) (errs : List BaseErr)
      (evs : List Event),
      evacLoop e env rcs nodeName pods firstPod n errs evs =
        (errs ++ pods.filterMap (podDeleteErr e env rcs),
         n + (pods.filter fun pod => !(foundRC rcs pod || e.Force)).length,
         evs ++ podEvents e rcs nodeName pods firstPod) := by
  intro pods
  induction pods with
  | nil => intro firstPod n errs evs; simp [evacLoop, podEvents]
  | cons pod rest ih =>
    intro firstPod n errs evs
    cases hf : foundRC rcs pod || e.Force with
    | true =>
      have h1 : foundRC rcs pod = true ∨ e.Force = true := by simpa using hf
      have hcond : ¬(foundRC rcs pod = false ∧ e.Force = false) := by
        rcases h1 with h | h <;> simp [h]
      cases hdel : env.deleteResult pod.Namespace pod.Name with
      | some msg =>
        simp [evacLoop, hf, hdel, ih, podEvents, podDeleteErr, hcond,
          List.filterMap_cons, List.filter_cons, List.append_assoc]
      | none =>
        simp [evacLoop, hf, hdel, ih, podEvents, podDeleteErr, hcond,
          List.filterMap_cons, List.filter_cons, List.append_assoc]
    | false =>
      have hcond : foundRC rcs pod = false ∧ e.Force = false := by
        cases hr : foundRC rcs pod <;> cases hF : e.Force <;>
          simp [hr, hF] at hf ⊢
      simp [evacLoop, hf, ih, podEvents, podDeleteErr, hcond.1, hcond.2,
        List.filterMap_cons, List.filter_cons, List.append_assoc]
      try omega

/-- The delete calls of the loop's trace: one per eligible pod, in listing
order, each with the options from `makeDeleteOptions`. -/
theorem deleteCalls_podEvents (e : EvacuateOptions) (rcs : List RC)
    (nodeName : String) :
    ∀ (pods : List Pod) (firstPod : Bool),
      deleteCalls (podEvents e rcs nodeName pods firstPod) =
        (pods.filter fun pod => foundRC rcs pod || e.Force).map
          (fun pod => (pod.Namespace, pod.Name, makeDeleteOptions e)) := by
  intro pods
  induction pods with
  | nil => intro firstPod; simp [podEvents, deleteCalls]
  | cons pod rest ih =>
    intro firstPod
    cases hf : foundRC rcs pod || e.Force <;> cases firstPod <;>
      simp [podEvents, deleteCalls, List.filter_cons, hf, eventDelete,
        List.filterMap_append, List.filterMap_cons] <;>
      simpa [deleteCalls] using ih false

/-- The expected print sequence of a pod list: when `firstPod` is true the
first pod carries headers, every later pod does not. -/
def expectedPrints : Bool → List Pod → List (Bool × Pod)
  | _, [] => []
  | firstPod, pod :: rest => (firstPod, pod) :: expectedPrints false rest

/-- The prints of the loop's trace follow `expectedPrints`. -/
theorem printedPods_podEvents (e : EvacuateOptions) (rcs : List RC)
    (nodeName : String) :
    ∀ (pods : List Pod) (firstPod : Bool),
      printedPods (podEvents e rcs nodeName pods firstPod) =
        expectedPrints firstPod pods := by
  intro pods
  induction pods with
  | nil => intro firstPod; simp [podEvents, printedPods, expectedPrints]
  | cons pod rest ih =>
    intro firstPod
    cases hf : foundRC rcs pod || e.Force <;> cases firstPod <;>
      simp [podEvents, printedPods, expectedPrints, hf, eventPrinted,
        List.filterMap_append, List.filterMap_cons] <;>
      simpa [printedPods] using ih false

/-- The loop's trace emits the banner exactly once when the pod list is
nonempty and `firstPod` is set, never otherwise. -/
theorem banners_podEvents (e : EvacuateOptions) (rcs : List RC)
    (nodeName : String) :
    ∀ (pods : List Pod) (firstPod : Bool),
      banners (podEvents e rcs nodeName pods firstPod) =
        if firstPod && !pods.isEmpty then [nodeName] else [] := by
  intro pods
  induction pods with
  | nil => intro firstPod; simp [podEvents, banners]
  | cons pod rest ih =>
    intro firstPod
    cases hf : foundRC rcs pod || e.Force <;> cases firstPod <;>
      simp [podEvents, banners, hf, List.filterMap_append, List.filterMap_cons] <;>
      simpa [banners] using ih false

/-- A filtered list is nonempty iff some element satisfies the predicate. -/
theorem filter_length_pos_iff_any {α : Type} (f : α → Bool) :
    ∀ l : List α, (0 < (l.filter f).length) ↔ l.any f = true := by
  intro l
  induction l with
  | nil => simp
  | cons a t ih => cases h : f a <;> simp [List.filter_cons, h, ih]

/-- No per-pod delete error is the synthetic skipped-pods error. -/
theorem sum_countNotBacked_deleteErrs (e : EvacuateOptions) (env : Env)
    (rcs : List RC) :
    ∀ pods : List Pod,
      (((pods.filterMap (podDeleteErr e env rcs)).map countNotBackedBase).sum) = 0 := by
  intro pods
  induction pods with
  | nil => rfl
  | cons pod rest ih =>
    rw [List.filterMap_cons]
    cases h : podDeleteErr e env rcs pod with
    | none => simpa using ih
    | some b =>
      have hb : countNotBackedBase b = 0 := by
        unfold podDeleteErr at h
        split at h
        · rcases Option.map_eq_some'.mp h with ⟨msg, _, rfl⟩
          rfl
        · exact absurd h (by simp)
      simp [hb, ih]

/-- `countNotBacked` through `newAggregate` is the sum over the list. -/
theorem countNotBacked_newAggregate (l : List BaseErr) :
    countNotBacked (newAggregate l) = (l.map countNotBackedBase).sum := by
  by_cases h : l.isEmpty = true
  · rw [List.isEmpty_iff] at h
    subst h
    simp [newAggregate, countNotBacked]
  · simp [newAggregate, h, countNotBacked]

/-- The dry-run branch never emits a delete call. -/
theorem deleteCalls_dryRunEvents (env : Env) :
    deleteCalls (dryRunEvents env) = [] := by
  unfold dryRunEvents
  cases env.podsResult with
  | error msg => rfl
  | ok pods =>
    simp only [deleteCalls, List.filterMap_map]
    exact List.filterMap_eq_nil_iff.mpr fun a _ => rfl

/-- Header-less prints of a pod list print exactly that list. -/
theorem printedPods_map_noHeaders :
    ∀ pods : List Pod,
      (printedPods (pods.map Event.printNoHeaders)).map Prod.snd = pods := by
  intro pods
  induction pods with
  | nil => rfl
  | cons p rest ih =>
    simp only [List.map_cons, printedPods, List.filterMap_cons, eventPrinted] at ih ⊢
    simpa using ih

/-- Dry-run printing: the printed pods are exactly the listed target pods. -/
theorem printedPods_dryRunEvents (env : Env) (pods : List Pod)
    (hpods : env.podsResult = Except.ok pods) :
    (printedPods (dryRunEvents env)).map Prod.snd = pods := by
  unfold dryRunEvents
  rw [hpods]
  exact printedPods_map_noHeaders pods

/-- With `firstPod` unset every pod prints without headers. -/
theorem expectedPrints_false (pods : List Pod) :
    expectedPrints false pods = pods.map fun pod => (false, pod) := by
  induction pods with
  | nil => rfl
  | cons pod rest ih => simp [expectedPrints, ih]

/-- Closed form of the node loop of `Run`: every node is processed, in input
order; the collected errors are the non-nil per-node results and the traces
concatenate. -/
theorem runNodes_spec (e : EvacuateOptions) :
    ∀ pairs : List (Node × Env),
      runNodes e pairs =
        (pairs.filterMap (fun pr => (RunEvacuate e pr.2 pr.1).1),
         (pairs.map fun pr => (RunEvacuate e pr.2 pr.1).2).flatten) := by
  intro pairs
  induction pairs with
  | nil => rfl
  | cons pr rest ih =>
    obtain ⟨node, env⟩ := pr
    cases h : (RunEvacuate e env node).1 <;>
      simp [runNodes, h, ih, List.filterMap_cons]

/-- Reduction of `RunEvacuate` on the real-execution path: gate passed,
selector parsed, listings and printers obtained. The returned error is
`NewAggregate` of the per-pod delete errors plus the one-time skipped-pods
error, and the trace is `podEvents`. -/
theorem RunEvacuate_run (e : EvacuateOptions) (env : Env) (node : Node)
    (pods : List Pod) (rcs : List RC)
    (hd : e.DryRun = false) (hu : node.Unschedulable = true)
    (hp : env.parseOk = Except.ok ()) (hpods : env.podsResult = Except.ok pods)
    (hrcs : env.rcsResult = Except.ok rcs) (hpr : env.printersOk = Except.ok ()) :
    RunEvacuate e env node =
      (newAggregate
        (if 0 < (pods.filter fun pod => !(foundRC rcs pod || e.Force)).length
         then pods.filterMap (podDeleteErr e env rcs) ++
           [BaseErr.podsNotBacked remediationText]
         else pods.filterMap (podDeleteErr e env rcs)),
       podEvents e rcs node.Name pods true) := by
  rw [RunEvacuate]
  simp [hd, hu, hp, hpods, hrcs, hpr, evacLoop_spec]

/-! ### Concrete fixtures (the spec's concrete scenario of §8 and variants) -/

/-- A schedulable node. -/
def badNode : Node := { Name := "n0", APIVersion := "v1", Unschedulable := false }

/-- The unschedulable node `n1` of the spec's concrete scenario. -/
def node1 : Node := { Name := "n1", APIVersion := "v1", Unschedulable := true }

/-- Pod `p1` with labels `{app: x}`, hosted on `n1`. -/
def pod1 : Pod := { Namespace := "ns1", Name := "p1", Labels := [("app", "x")], Host := "n1" }

/-- Pod `p2` with labels `{app: y}`, hosted on `n1`, matched by no controller. -/
def pod2 : Pod := { Namespace := "ns1", Name := "p2", Labels := [("app", "y")], Host := "n1" }

/-- A second controller-backed pod `p3` with labels `{app: x}`. -/
def pod3 : Pod := { Namespace := "ns1", Name := "p3", Labels := [("app", "x")], Host := "n1" }

/-- A replication controller with selector `{app: x}`. -/
def rc1 : RC := { Namespace := "ns1", Selector := [("app", "x")] }

/-- A controller in a different namespace with selector `{app: x}`. -/
def rcOther : RC := { Namespace := "other", Selector := [("app", "x")] }

/-- A controller with an empty selector. -/
def rcEmpty : RC := { Namespace := "ns1", Selector := [] }

/-- An oracle with no pods and no controllers; every delete succeeds. -/
def env0 : Env :=
  { parseOk := Except.ok (), podsResult := Except.ok [],
    rcsResult := Except.ok [], printersOk := Except.ok (),
    deleteResult := fun _ _ => none, dryRunResult := none }

/-- The spec's concrete scenario: pods `p1, p2` on the node, controller `rc1`;
every delete succeeds. -/
def env1 : Env :=
  { parseOk := Except.ok (), podsResult := Except.ok [pod1, pod2],
    rcsResult := Except.ok [rc1], printersOk := Except.ok (),
    deleteResult := fun _ _ => none, dryRunResult := none }

/-- Two backed pods `p1, p3`; the delete of `p1` fails with "boom". -/
def envFail : Env :=
  { parseOk := Except.ok (), podsResult := Except.ok [pod1, pod3],
    rcsResult := Except.ok [rc1], printersOk := Except.ok (),
    deleteResult := fun _ nm => if nm == "p1" then some "boom" else none,
    dryRunResult := none }

/-- Pods `p1, p2` with only the empty-selector controller listed. -/
def env2 : Env :=
  { parseOk := Except.ok (), podsResult := Except.ok [pod1, pod2],
    rcsResult := Except.ok [rcEmpty], printersOk := Except.ok (),
    deleteResult := fun _ _ => none, dryRunResult := none }

/-! ### The claims -/

/-- C1 (counterexample): the claim quantifies over every flag configuration,
including `dryRun = true`; but `RunEvacuate` tests `e.DryRun` before the
unschedulable gate, so evacuating the schedulable node `n0` with
`dryRun = true` returns no error at all instead of `NodeNotUnschedulable`:
the gate is bypassed by the dry-run flag. -/
theorem C1_counterexample :
    badNode.Unschedulable = false ∧
    (RunEvacuate { DryRun := true, Force := false, GracePeriod := 30 }
        env0 badNode).1 = none :=
  ⟨rfl, rfl⟩

/-- C1 (amended): for every node whose unschedulable flag is false and every
configuration with `dryRun = false` (any `force`, any `gracePeriod`),
evacuation returns the `NodeNotUnschedulable` error and issues zero delete
calls; with `dryRun = true` the gate is skipped (the dry-run listing path
returns first) but still zero delete calls are issued. -/
theorem C1_gate_unless_dryRun (e : EvacuateOptions) (env : Env) (node : Node)
    (hu : node.Unschedulable = false) :
    (e.DryRun = false →
      (RunEvacuate e env node).1 =
          some (EvacError.base (BaseErr.nodeNotUnschedulable node.Name)) ∧
        deleteCalls (RunEvacuate e env node).2 = []) ∧
    (e.DryRun = true → deleteCalls (RunEvacuate e env node).2 = []) := by
  constructor
  · intro hd
    constructor <;> simp [RunEvacuate, hd, hu, deleteCalls]
  · intro hd
    simp [RunEvacuate, hd, deleteCalls_dryRunEvents]

/-- C1 witness: the amended theorem at `n0` with default flags. -/
theorem C1_witness :
    (RunEvacuate { DryRun := false, Force := false, GracePeriod := 30 }
          env0 badNode).1 =
        some (EvacError.base (BaseErr.nodeNotUnschedulable badNode.Name)) ∧
      deleteCalls (RunEvacuate { DryRun := false, Force := false, GracePeriod := 30 }
          env0 badNode).2 = [] :=
  (C1_gate_unless_dryRun { DryRun := false, Force := false, GracePeriod := 30 }
    env0 badNode rfl).1 rfl

/-- C2: in non-dry-run evacuation of a node that passes the gate and whose
listings succeed, the delete calls are exactly one per pod that is
controller-backed or forced, in listing order, each with the configured
grace period (`makeDeleteOptions`), and none for a standalone pod without
force; the default configuration has grace period 30. -/
theorem C2_delete_calls (e : EvacuateOptions) (env : Env) (node : Node)
    (pods : List Pod) (rcs : List RC)
    (hd : e.DryRun = false) (hu : node.Unschedulable = true)
    (hp : env.parseOk = Except.ok ()) (hpods : env.podsResult = Except.ok pods)
    (hrcs : env.rcsResult = Except.ok rcs) (hpr : env.printersOk = Except.ok ()) :
    deleteCalls (RunEvacuate e env node).2 =
      (pods.filter fun pod => foundRC rcs pod || e.Force).map
        (fun pod => (pod.Namespace, pod.Name, makeDeleteOptions e)) ∧
    makeDeleteOptions e = { GracePeriodSeconds := e.GracePeriod } ∧
    NewEvacuateOptions.GracePeriod = 30 := by
  refine ⟨?_, rfl, rfl⟩
  rw [RunEvacuate_run e env node pods rcs hd hu hp hpods hrcs hpr]
  simp [deleteCalls_podEvents]

/-- C2 witness: the spec's concrete scenario with default flags; `p1` gets
one delete call with grace period 30, `p2` none. -/
theorem C2_witness :
    deleteCalls (RunEvacuate NewEvacuateOptions env1 node1).2 =
      ([pod1, pod2].filter fun pod => foundRC [rc1] pod || NewEvacuateOptions.Force).map
        (fun pod => (pod.Namespace, pod.Name, makeDeleteOptions NewEvacuateOptions)) ∧
    deleteCalls (RunEvacuate NewEvacuateOptions env1 node1).2 =
      [("ns1", "p1", { GracePeriodSeconds := 30 })] :=
  ⟨(C2_delete_calls NewEvacuateOptions env1 node1 [pod1, pod2] [rc1]
      rfl rfl rfl rfl rfl rfl).1,
    by decide⟩

/-- C3: without force, the returned node error contains the synthetic
skipped-pods error exactly once when at least one listed pod is standalone,
and not at all otherwise — independently of how many standalone pods there
are. -/
theorem C3_single_skip_error (e : EvacuateOptions) (env : Env) (node : Node)
    (pods : List Pod) (rcs : List RC)
    (hd : e.DryRun = false) (hu : node.Unschedulable = true)
    (hp : env.parseOk = Except.ok ()) (hpods : env.podsResult = Except.ok pods)
    (hrcs : env.rcsResult = Except.ok rcs) (hpr : env.printersOk = Except.ok ())
    (hforce : e.Force = false) :
    countNotBacked (RunEvacuate e env node).1 =
      if pods.any (fun pod => !foundRC rcs pod) then 1 else 0 := by
  rw [RunEvacuate_run e env node pods rcs hd hu hp hpods hrcs hpr]
  cases hany : pods.any fun pod => !foundRC rcs pod with
  | true =>
    have hlen : 0 < (pods.filter fun pod => !(foundRC rcs pod || e.Force)).length := by
      rw [filter_length_pos_iff_any]
      simpa [hforce] using hany
    simp only [hlen, if_true, if_pos]
    rw [countNotBacked_newAggregate]
    simp [List.map_append, List.sum_append, sum_countNotBacked_deleteErrs,
      countNotBackedBase]
  | false =>
    have hlen : ¬ 0 < (pods.filter fun pod => !(foundRC rcs pod || e.Force)).length := by
      rw [filter_length_pos_iff_any]
      simp [hforce, hany]
    simp only [hlen, if_neg, if_false]
    rw [countNotBacked_newAggregate]
    simp [sum_countNotBacked_deleteErrs]

/-- C3 witness: the concrete scenario has the standalone pod `p2`, so the
skipped-pods error appears exactly once; and it evaluates to exactly 1. -/
theorem C3_witness :
    (countNotBacked (RunEvacuate NewEvacuateOptions env1 node1).1 =
      if [pod1, pod2].any (fun pod => !foundRC [rc1] pod) then 1 else 0) ∧
    countNotBacked (RunEvacuate NewEvacuateOptions env1 node1).1 = 1 :=
  ⟨C3_single_skip_error NewEvacuateOptions env1 node1 [pod1, pod2] [rc1]
      rfl rfl rfl rfl rfl rfl rfl,
    by decide⟩

/-- C4: in a multi-node batch, nodes are processed sequentially in input
order — the collected errors are the non-nil per-node results in order and
the traces concatenate in order, so no failing node stops its successors —
and the overall call returns nil iff every node succeeded (a non-empty
aggregate iff at least one node produced an error). -/
theorem C4_batch_aggregate (e : EvacuateOptions) (pairs : List (Node × Env)) :
    Run e (Except.ok pairs) =
      (if (pairs.filterMap fun pr => (RunEvacuate e pr.2 pr.1).1).isEmpty
       then none
       else some (RunErr.aggregate
         (pairs.filterMap fun pr => (RunEvacuate e pr.2 pr.1).1)),
       (pairs.map fun pr => (RunEvacuate e pr.2 pr.1).2).flatten) ∧
    ((Run e (Except.ok pairs)).1 = none ↔
      ∀ pr ∈ pairs, (RunEvacuate e pr.2 pr.1).1 = none) := by
  have hs := runNodes_spec e pairs
  have h1 : Run e (Except.ok pairs) =
      (if (pairs.filterMap fun pr => (RunEvacuate e pr.2 pr.1).1).isEmpty
       then none
       else some (RunErr.aggregate
         (pairs.filterMap fun pr => (RunEvacuate e pr.2 pr.1).1)),
       (pairs.map fun pr => (RunEvacuate e pr.2 pr.1).2).flatten) := by
    simp only [Run]
    rw [hs]
  refine ⟨h1, ?_⟩
  rw [h1]
  by_cases hL : (pairs.filterMap fun pr => (RunEvacuate e pr.2 pr.1).1) = []
  · simp only [hL, List.isEmpty_nil, if_true, if_pos]
    simp only [true_iff, eq_self_iff_true]
    exact fun pr hpr => List.filterMap_eq_nil_iff.mp hL pr hpr
  · have hne : ¬ (pairs.filterMap fun pr => (RunEvacuate e pr.2 pr.1).1).isEmpty = true := by
      simpa [List.isEmpty_iff] using hL
    simp [hne]
    have hex : ¬ ∀ pr ∈ pairs, (RunEvacuate e pr.2 pr.1).1 = none :=
      fun hall => hL (List.filterMap_eq_nil_iff.mpr hall)
    push_neg at hex
    rcases hex with ⟨pr, hpr, hne2⟩
    exact ⟨pr.1, pr.2, by simpa using hpr, hne2⟩

/-- C4 witness: a two-node batch where `n0` fails its gate and `n1` succeeds
fully under force; the batch processes both and aggregates only the error of
`n0`. -/
theorem C4_witness :
    Run { DryRun := false, Force := true, GracePeriod := 30 }
        (Except.ok [(badNode, env0), (node1, env1)]) =
      (if ([(badNode, env0), (node1, env1)].filterMap fun pr =>
            (RunEvacuate { DryRun := false, Force := true, GracePeriod := 30 } pr.2 pr.1).1).isEmpty
       then none
       else some (RunErr.aggregate
         ([(badNode, env0), (node1, env1)].filterMap fun pr =>
           (RunEvacuate { DryRun := false, Force := true, GracePeriod := 30 } pr.2 pr.1).1)),
       ([(badNode, env0), (node1, env1)].map fun pr =>
         (RunEvacuate { DryRun := false, Force := true, GracePeriod := 30 } pr.2 pr.1).2).flatten) ∧
    ((Run { DryRun := false, Force := true, GracePeriod := 30 }
        (Except.ok [(badNode, env0), (node1, env1)])).1 = none ↔
      ∀ pr ∈ [(badNode, env0), (node1, env1)],
        (RunEvacuate { DryRun := false, Force := true, GracePeriod := 30 } pr.2 pr.1).1 = none) :=
  C4_batch_aggregate { DryRun := false, Force := true, GracePeriod := 30 }
    [(badNode, env0), (node1, env1)]

/-- C5: a pod is classified controller-backed iff some listed controller's
selector, as a key/value set, is contained in the pod's labels (every
key/value pair of the selector present with equal value); the classification
reads nothing of the pod but its labels. -/
theorem C5_classification (rcs : List RC) (pod : Pod) :
    (foundRC rcs pod = true ↔
      ∃ rc ∈ rcs, ∀ kv ∈ rc.Selector, pod.Labels.lookup kv.1 = some kv.2) ∧
    (∀ q : Pod, q.Labels = pod.Labels → foundRC rcs q = foundRC rcs pod) := by
  constructor
  · simp [foundRC, selectorMatches, List.any_eq_true, List.all_eq_true]
  · intro q hq
    simp [foundRC, selectorMatches, hq]

/-- C5 witness: the classification law at the concrete scenario. -/
theorem C5_witness :
    ((foundRC [rc1] pod1 = true ↔
        ∃ rc ∈ [rc1], ∀ kv ∈ rc.Selector, pod1.Labels.lookup kv.1 = some kv.2) ∧
      (∀ q : Pod, q.Labels = pod1.Labels → foundRC [rc1] q = foundRC [rc1] pod1)) ∧
    foundRC [rc1] pod1 = true ∧ foundRC [rc1] pod2 = false :=
  ⟨C5_classification [rc1] pod1, by decide, by decide⟩

/-- C6: under the execution path, the node's returned error aggregates
exactly the per-pod delete failures, in listing order (plus the one-time
skipped-pods error), and every eligible pod still receives its delete call:
a single failing delete neither aborts the loop nor suppresses later
deletions. -/
theorem C6_delete_failures_isolated (e : EvacuateOptions) (env : Env)
    (node : Node) (pods : List Pod) (rcs : List RC)
    (hd : e.DryRun = false) (hu : node.Unschedulable = true)
    (hp : env.parseOk = Except.ok ()) (hpods : env.podsResult = Except.ok pods)
    (hrcs : env.rcsResult = Except.ok rcs) (hpr : env.printersOk = Except.ok ()) :
    (RunEvacuate e env node).1 =
      newAggregate
        (if 0 < (pods.filter fun pod => !(foundRC rcs pod || e.Force)).length
         then (pods.filterMap fun pod =>
             if foundRC rcs pod || e.Force then
               (env.deleteResult pod.Namespace pod.Name).map
                 (BaseErr.deleteFailed pod.Namespace pod.Name)
             else none) ++ [BaseErr.podsNotBacked remediationText]
         else pods.filterMap fun pod =>
             if foundRC rcs pod || e.Force then
               (env.deleteResult pod.Namespace pod.Name).map
                 (BaseErr.deleteFailed pod.Namespace pod.Name)
             else none) ∧
    deleteCalls (RunEvacuate e env node).2 =
      (pods.filter fun pod => foundRC rcs pod || e.Force).map
        (fun pod => (pod.Namespace, pod.Name, makeDeleteOptions e)) := by
  rw [RunEvacuate_run e env node pods rcs hd hu hp hpods hrcs hpr]
  constructor
  · rfl
  · simp [deleteCalls_podEvents]

/-- C6 witness: `p1` and `p3` are both backed; the delete of `p1` fails with
"boom"; the node reports exactly that one delete error plus nothing else,
and `p3` was still delete-called after the failure. -/
theorem C6_witness :
    ((RunEvacuate NewEvacuateOptions envFail node1).1 =
        newAggregate
          (if 0 < ([pod1, pod3].filter fun pod =>
              !(foundRC [rc1] pod || NewEvacuateOptions.Force)).length
           then ([pod1, pod3].filterMap fun pod =>
               if foundRC [rc1] pod || NewEvacuateOptions.Force then
                 (envFail.deleteResult pod.Namespace pod.Name).map
                   (BaseErr.deleteFailed pod.Namespace pod.Name)
               else none) ++ [BaseErr.podsNotBacked remediationText]
           else [pod1, pod3].filterMap fun pod =>
               if foundRC [rc1] pod || NewEvacuateOptions.Force then
                 (envFail.deleteResult pod.Namespace pod.Name).map
                   (BaseErr.deleteFailed pod.Namespace pod.Name)
               else none) ∧
      deleteCalls (RunEvacuate NewEvacuateOptions envFail node1).2 =
        ([pod1, pod3].filter fun pod => foundRC [rc1] pod || NewEvacuateOptions.Force).map
          (fun pod => (pod.Namespace, pod.Name, makeDeleteOptions NewEvacuateOptions))) ∧
    (RunEvacuate NewEvacuateOptions envFail node1).1 =
      some (EvacError.aggregate [BaseErr.deleteFailed "ns1" "p1" "boom"]) ∧
    deleteCalls (RunEvacuate NewEvacuateOptions envFail node1).2 =
      [("ns1", "p1", { GracePeriodSeconds := 30 }),
       ("ns1", "p3", { GracePeriodSeconds := 30 })] :=
  ⟨C6_delete_failures_isolated NewEvacuateOptions envFail node1 [pod1, pod3] [rc1]
      rfl rfl rfl rfl rfl rfl,
    by decide, by decide⟩

/-- C7: with `dryRun = true` the trace of a run contains zero delete calls —
for every oracle, node, force and grace period — and when the pod listing
succeeds the printed pods are exactly the target pods, in order (the
dry-run branch delegates to the read-only listing operation, modelled from
the spec). -/
theorem C7_dryRun_no_deletes (e : EvacuateOptions) (env : Env) (node : Node)
    (hd : e.DryRun = true) :
    deleteCalls (RunEvacuate e env node).2 = [] ∧
    ∀ pods, env.podsResult = Except.ok pods →
      (printedPods (RunEvacuate e env node).2).map Prod.snd = pods := by
  constructor
  · simp [RunEvacuate, hd, deleteCalls_dryRunEvents]
  · intro pods hpods
    have h2 : (RunEvacuate e env node).2 = dryRunEvents env := by
      simp [RunEvacuate, hd]
    rw [h2]
    exact printedPods_dryRunEvents env pods hpods

/-- C7 witness: dry run over the concrete scenario with force set: no delete
calls, and both target pods are printed. -/
theorem C7_witness :
    (deleteCalls (RunEvacuate { DryRun := true, Force := true, GracePeriod := 5 }
        env1 node1).2 = [] ∧
      ∀ pods, env1.podsResult = Except.ok pods →
        (printedPods (RunEvacuate { DryRun := true, Force := true, GracePeriod := 5 }
          env1 node1).2).map Prod.snd = pods) ∧
    (printedPods (RunEvacuate { DryRun := true, Force := true, GracePeriod := 5 }
        env1 node1).2).map Prod.snd = [pod1, pod2] :=
  ⟨C7_dryRun_no_deletes { DryRun := true, Force := true, GracePeriod := 5 }
      env1 node1 rfl,
    (C7_dryRun_no_deletes { DryRun := true, Force := true, GracePeriod := 5 }
      env1 node1 rfl).2 [pod1, pod2] rfl⟩

/-- C8: on the execution path every target pod is printed in original
listing order; the first pod of the node is printed with the header-bearing
formatter, every later pod with the header-less one, and the banner for the
node is emitted exactly once iff the pod list is nonempty (before the first
print, by the shape of `podEvents`). -/
theorem C8_print_order (e : EvacuateOptions) (env : Env) (node : Node)
    (pods : List Pod) (rcs : List RC)
    (hd : e.DryRun = false) (hu : node.Unschedulable = true)
    (hp : env.parseOk = Except.ok ()) (hpods : env.podsResult = Except.ok pods)
    (hrcs : env.rcsResult = Except.ok rcs) (hpr : env.printersOk = Except.ok ()) :
    printedPods (RunEvacuate e env node).2 =
      (match pods with
       | [] => []
       | pod :: rest => (true, pod) :: rest.map fun q => (false, q)) ∧
    banners (RunEvacuate e env node).2 =
      (if pods.isEmpty then [] else [node.Name]) := by
  rw [RunEvacuate_run e env node pods rcs hd hu hp hpods hrcs hpr]
  constructor
  · show printedPods (podEvents e rcs node.Name pods true) = _
    rw [printedPods_podEvents]
    cases pods with
    | nil => rfl
    | cons pod rest => simp [expectedPrints, expectedPrints_false]
  · show banners (podEvents e rcs node.Name pods true) = _
    rw [banners_podEvents]
    cases pods with
    | nil => rfl
    | cons pod rest => rfl

/-- C8 witness: the concrete scenario prints `p1` with headers, then `p2`
without, and emits the banner for `n1` once. -/
theorem C8_witness :
    (printedPods (RunEvacuate NewEvacuateOptions env1 node1).2 =
      (match [pod1, pod2] with
       | [] => []
       | pod :: rest => (true, pod) :: rest.map fun q => (false, q)) ∧
    banners (RunEvacuate NewEvacuateOptions env1 node1).2 =
      (if ([pod1, pod2] : List Pod).isEmpty then [] else [node1.Name])) ∧
    printedPods (RunEvacuate NewEvacuateOptions env1 node1).2 =
      [(true, pod1), (false, pod2)] ∧
    banners (RunEvacuate NewEvacuateOptions env1 node1).2 = ["n1"] :=
  ⟨C8_print_order NewEvacuateOptions env1 node1 [pod1, pod2] [rc1]
      rfl rfl rfl rfl rfl rfl,
    by decide, by decide⟩

/-- C9: classification never compares namespaces — rewriting the namespace
of the pod and of every listed controller arbitrarily does not change the
classification, and any listed controller whose selector matches the pod's
labels classifies the pod controller-backed even when its namespace differs
from the pod's. -/
theorem C9_namespace_ignored (rcs : List RC) (pod : Pod) (ns2 : String)
    (f : String → String) :
    foundRC (rcs.map fun rc => { rc with Namespace := f rc.Namespace })
        { pod with Namespace := ns2 } = foundRC rcs pod ∧
    ∀ rc ∈ rcs, rc.Namespace ≠ pod.Namespace →
      selectorMatches rc.Selector pod.Labels = true → foundRC rcs pod = true := by
  constructor
  · simp only [foundRC, List.any_map]
    rfl
  · intro rc hrc _ hm
    exact List.any_eq_true.mpr ⟨rc, hrc, hm⟩

/-- C9 witness: `rcOther` lives in namespace "other" while `p1` lives in
"ns1"; `p1` is still classified controller-backed. -/
theorem C9_witness :
    (foundRC ([rcOther].map fun rc => { rc with Namespace := (fun n => n ++ "x") rc.Namespace })
        { pod1 with Namespace := "elsewhere" } = foundRC [rcOther] pod1 ∧
      ∀ rc ∈ [rcOther], rc.Namespace ≠ pod1.Namespace →
        selectorMatches rc.Selector pod1.Labels = true →
          foundRC [rcOther] pod1 = true) ∧
    rcOther.Namespace ≠ pod1.Namespace ∧ foundRC [rcOther] pod1 = true :=
  ⟨C9_namespace_ignored [rcOther] pod1 "elsewhere" (fun n => n ++ "x"),
    by decide,
    (C9_namespace_ignored [rcOther] pod1 "elsewhere" (fun n => n ++ "x")).2
      rcOther (by simp) (by decide) rfl⟩

/-- C10: when some listed controller has an empty selector, every pod is
classified controller-backed (the empty requirement set matches vacuously);
consequently, on the execution path every listed pod receives a delete call
and the skipped-pods error is never emitted. -/
theorem C10_empty_selector (e : EvacuateOptions) (env : Env) (node : Node)
    (pods : List Pod) (rcs : List RC) (rc : RC)
    (hd : e.DryRun = false) (hu : node.Unschedulable = true)
    (hp : env.parseOk = Except.ok ()) (hpods : env.podsResult = Except.ok pods)
    (hrcs : env.rcsResult = Except.ok rcs) (hpr : env.printersOk = Except.ok ())
    (hrc : rc ∈ rcs) (hsel : rc.Selector = []) :
    (∀ pod : Pod, foundRC rcs pod = true) ∧
    deleteCalls (RunEvacuate e env node).2 =
      pods.map (fun pod => (pod.Namespace, pod.Name, makeDeleteOptions e)) ∧
    countNotBacked (RunEvacuate e env node).1 = 0 := by
  have hall : ∀ pod : Pod, foundRC rcs pod = true := fun pod =>
    List.any_eq_true.mpr ⟨rc, hrc, by simp [selectorMatches, hsel]⟩
  have hfilter : (pods.filter fun pod => !(foundRC rcs pod || e.Force)) = [] := by
    simp [hall]
  refine ⟨hall, ?_, ?_⟩
  · rw [RunEvacuate_run e env node pods rcs hd hu hp hpods hrcs hpr]
    show deleteCalls (podEvents e rcs node.Name pods true) = _
    rw [deleteCalls_podEvents]
    simp [hall]
  · rw [RunEvacuate_run e env node pods rcs hd hu hp hpods hrcs hpr]
    show countNotBacked (newAggregate _) = 0
    rw [hfilter]
    simp only [List.length_nil, Nat.lt_irrefl, if_neg, if_false]
    rw [countNotBacked_newAggregate]
    exact sum_countNotBacked_deleteErrs e env rcs pods

/-- C10 witness: with the empty-selector controller listed, both `p1` and
the standalone-looking `p2` are delete-called and no skipped-pods error is
reported. -/
theorem C10_witness :
    ((∀ pod : Pod, foundRC [rcEmpty] pod = true) ∧
      deleteCalls (RunEvacuate NewEvacuateOptions env2 node1).2 =
        [pod1, pod2].map (fun pod => (pod.Namespace, pod.Name, makeDeleteOptions NewEvacuateOptions)) ∧
      countNotBacked (RunEvacuate NewEvacuateOptions env2 node1).1 = 0) ∧
    deleteCalls (RunEvacuate NewEvacuateOptions env2 node1).2 =
      [("ns1", "p1", { GracePeriodSeconds := 30 }),
       ("ns1", "p2", { GracePeriodSeconds := 30 })] ∧
    (RunEvacuate NewEvacuateOptions env2 node1).1 = none :=
  ⟨C10_empty_selector NewEvacuateOptions env2 node1 [pod1, pod2] [rcEmpty] rcEmpty
      rfl rfl rfl rfl rfl rfl (by simp) rfl,
    by decide, by decide⟩

end EvacNode
